import Mathlib

/-!
Verification development for the NPI registry lookup application
(`src/app.py`).  The Python source is shallowly embedded: dictionaries
returned by the upstream registry are modelled as structures whose string
fields default to `""` (the default the code supplies via `dict.get`),
`None`-able lookups are modelled with `Option`, and Python truthiness of
strings/lists/dicts is modelled explicitly.  String operations are modelled
over the ASCII fragment actually exercised by the program: `str.strip`
removes the six ASCII whitespace characters and `str.isdigit` is modelled
as "all characters between '0' and '9'" (Python additionally accepts some
non-ASCII digit characters; identifiers here are ASCII).
-/

namespace NpiApp

/-- ASCII whitespace recognised by Python's `str.strip`. -/
def pyIsSpace (c : Char) : Bool :=
  c = ' ' ∨ c = '\t' ∨ c = '\n' ∨ c = '\r' ∨ c = '\x0B' ∨ c = '\x0C'

/-- Strip `pyIsSpace` characters from both ends of a character list. -/
def stripChars (l : List Char) : List Char :=
  ((l.dropWhile pyIsSpace).reverse.dropWhile pyIsSpace).reverse

/-- Model of Python `str.strip()` (ASCII whitespace). -/
def pyStrip (s : String) : String :=
  String.mk (stripChars s.data)

/-- Model of Python `str.isdigit()` on ASCII strings: non-empty and every
character is a decimal digit. -/
def pyIsDigit (s : String) : Bool :=
  (!(s == "")) && s.data.all (fun c => decide ('0' ≤ c ∧ c ≤ '9'))

/-- Model of Python `a or b` on strings: the empty string is falsy. -/
def pyOr (a b : String) : String :=
  if a = "" then b else a

/-- Embedding of `validate_npi` (src/app.py lines 203-214):
strip surrounding whitespace, then require length 10 and all digits. -/
def validate_npi (npi : String) : Bool :=
  let t := pyStrip npi
  (t.length == 10) && pyIsDigit t

/-- The `basic` sub-dictionary of a registry result.  Absent keys are
modelled by the empty string (the code always reads them with `.get(k)`
falling back through `or` chains, or `.get(k, "")`). -/
structure Basic where
  organization_name : String := ""
  name : String := ""
  legal_business_name : String := ""
  org_name : String := ""
  first_name : String := ""
  last_name : String := ""
  status : String := ""
  last_updated : String := ""
  enumeration_date : String := ""
  authorized_official_first_name : String := ""
  authorized_official_last_name : String := ""
  authorized_official_title_or_position : String := ""
  authorized_official_telephone_number : String := ""
deriving DecidableEq

/-- One entry of the `addresses` list.  `address_purpose` is read with
`.get` without a default, so absence is `none`. -/
structure Address where
  address_purpose : Option String := none
  address_1 : String := ""
  address_2 : String := ""
  city : String := ""
  state : String := ""
  postal_code : String := ""
  country_name : String := ""
  telephone_number : String := ""
  fax_number : String := ""
deriving DecidableEq

/-- One entry of the `taxonomies` list (`primary` read with default
`False`). -/
structure Taxonomy where
  primary : Bool := false
  code : String := ""
  desc : String := ""
deriving DecidableEq

/-- One entry of the `other_names` list. -/
structure OtherName where
  code : Option String := none
  type : Option String := none
  organization_name : String := ""
  name : String := ""
deriving DecidableEq

/-- One element of the registry's `results` list. -/
structure NpiResult where
  enumeration_type : Option String := none
  number : String := ""
  basic : Basic := {}
  addresses : List Address := []
  taxonomies : List Taxonomy := []
  other_names : List OtherName := []
  practiceLocations : List Address := []
  practice_locations : List Address := []
deriving DecidableEq

/-- The parsed JSON dictionary returned by the registry.
`hasResultsKey` models whether the key `"results"` is present;
`hasOtherKeys` models the presence of any other key, which is what makes
an empty dictionary falsy in Python. -/
structure RawResponse where
  hasResultsKey : Bool := true
  results : List NpiResult := []
  hasOtherKeys : Bool := false
deriving DecidableEq

/-- Python truthiness of the response dictionary: a dict is truthy iff it
has at least one key. -/
def RawResponse.pyTruthy (r : RawResponse) : Bool :=
  r.hasResultsKey || r.hasOtherKeys

/-- The flat provider record built by `extract_provider_info`
(src/app.py lines 170-199), field for field. -/
structure ProviderInfo where
  npi : String
  entity_type : String
  facility_name : String
  name : String
  doing_business_as : String
  first_name : String
  last_name : String
  organization_name : String
  primary_taxonomy : String
  taxonomy_description : String
  primary_practice_address : String
  primary_practice_city : String
  primary_practice_state : String
  primary_practice_zip : String
  primary_practice_phone : String
  primary_practice_fax : String
  mailing_address : String
  mailing_city : String
  mailing_state : String
  mailing_zip : String
  status : String
  last_updated : String
  enumeration_date : String
  authorized_official_first : String
  authorized_official_last : String
  authorized_official_title : String
  authorized_official_phone : String
  total_locations : Nat
deriving DecidableEq

/-- One step of the address loop (src/app.py lines 122-144): a
`"LOCATION"`-tagged entry overwrites the practice slot, a
`"MAILING"`-tagged entry overwrites the mailing slot, every other entry is
skipped. -/
def addrStep (p : Option Address × Option Address) (a : Address) :
    Option Address × Option Address :=
  if a.address_purpose = some "LOCATION" then (some a, p.2)
  else if a.address_purpose = some "MAILING" then (p.1, some a)
  else p

/-- The whole address loop, starting from two empty slots. -/
def addrScan (l : List Address) : Option Address × Option Address :=
  l.foldl addrStep (none, none)

/-- Reading a field out of a possibly-unpopulated address slot
(an unpopulated slot is the empty dict, whose `.get(k, "")` is `""`). -/
def optAddrField (o : Option Address) (f : Address → String) : String :=
  match o with
  | some a => f a
  | none => ""

/-- One step of the DBA loop (src/app.py lines 146-154). -/
def dbaStep (acc : List String) (o : OtherName) : List String :=
  if o.code = some "3" ∨ o.type = some "Doing Business As" then
    let nm := pyOr o.organization_name o.name
    if nm ≠ "" ∧ nm ∉ acc then acc ++ [nm] else acc
  else acc

/-- The DBA name accumulation loop. -/
def dbaNames (l : List OtherName) : List String :=
  l.foldl dbaStep []

/-- The taxonomy selection (src/app.py lines 156-168): scan for the first
entry flagged primary; afterwards, if the selected code is still the empty
string and the list is non-empty, take code and description from the first
entry. -/
def primaryTaxonomyPair (ts : List Taxonomy) : String × String :=
  if ts.isEmpty then ("", "")
  else
    let pair :=
      match ts.find? (fun t => t.primary) with
      | some t => (t.code, t.desc)
      | none => ("", "")
    if pair.1 = "" then
      match ts.head? with
      | some t0 => (t0.code, t0.desc)
      | none => pair
    else pair

/-- The body of `extract_provider_info` applied to the first result
(src/app.py lines 81-201). -/
def normalizeResult (result : NpiResult) : ProviderInfo :=
  let basic := result.basic
  let organization_name :=
    if result.enumeration_type = some "NPI-2" then
      pyOr basic.organization_name
        (pyOr basic.name (pyOr basic.legal_business_name (pyOr basic.org_name "")))
    else ""
  let provider_name :=
    if result.enumeration_type = some "NPI-1" then
      pyStrip (basic.first_name ++ " " ++ basic.last_name)
    else organization_name
  let slots := addrScan result.addresses
  let primary_location := slots.1
  let mailing := slots.2
  let dba := dbaNames result.other_names
  let taxPair := primaryTaxonomyPair result.taxonomies
  let pls :=
    if result.practiceLocations ≠ [] then result.practiceLocations
    else result.practice_locations
  { npi := result.number,
    entity_type :=
      if result.enumeration_type = some "NPI-1" then "Individual" else "Organization",
    facility_name := organization_name,
    name := provider_name,
    doing_business_as := if dba ≠ [] then String.intercalate ", " dba else "",
    first_name := basic.first_name,
    last_name := basic.last_name,
    organization_name := organization_name,
    primary_taxonomy := taxPair.1,
    taxonomy_description := taxPair.2,
    primary_practice_address :=
      pyStrip (optAddrField primary_location Address.address_1 ++ " " ++
        optAddrField primary_location Address.address_2),
    primary_practice_city := optAddrField primary_location Address.city,
    primary_practice_state := optAddrField primary_location Address.state,
    primary_practice_zip := optAddrField primary_location Address.postal_code,
    primary_practice_phone := optAddrField primary_location Address.telephone_number,
    primary_practice_fax := optAddrField primary_location Address.fax_number,
    mailing_address :=
      pyStrip (optAddrField mailing Address.address_1 ++ " " ++
        optAddrField mailing Address.address_2),
    mailing_city := optAddrField mailing Address.city,
    mailing_state := optAddrField mailing Address.state,
    mailing_zip := optAddrField mailing Address.postal_code,
    status := basic.status,
    last_updated := basic.last_updated,
    enumeration_date := basic.enumeration_date,
    authorized_official_first := basic.authorized_official_first_name,
    authorized_official_last := basic.authorized_official_last_name,
    authorized_official_title := basic.authorized_official_title_or_position,
    authorized_official_phone := basic.authorized_official_telephone_number,
    total_locations := if pls ≠ [] then pls.length + 1 else 1 }

/-- Embedding of `extract_provider_info` (src/app.py lines 67-201).
The argument is `none` when the caller passed Python `None`.  The guard on
line 78 returns `None` for a falsy response, a missing `"results"` key or
an empty results list; otherwise the first result is normalized. -/
def extract_provider_info (api_response : Option RawResponse) :
    Option ProviderInfo :=
  match api_response with
  | none => none
  | some resp =>
    match resp.results with
    | [] => none
    | result :: _ =>
      if resp.pyTruthy && resp.hasResultsKey then some (normalizeResult result)
      else none

/-- One row of the batch result list built by `process_npi_list`. -/
inductive BatchRow where
  | record (info : ProviderInfo)
  | error (npi : String) (msg : String)
deriving DecidableEq

/-- The per-identifier body of the `process_npi_list` loop
(src/app.py lines 239-259), applied to an already-stripped, non-blank
identifier.  The second component records which identifiers were sent to
the registry client (the single `query_npi_api` call site). -/
def stepOne (client : String → Option RawResponse) (npi : String) :
    BatchRow × List String :=
  if validate_npi npi then
    let row :=
      match client npi with
      | some r =>
        if r.pyTruthy then
          match extract_provider_info (some r) with
          | some info => BatchRow.record info
          | none => BatchRow.error npi "No results found"
        else BatchRow.error npi "API request failed"
      | none => BatchRow.error npi "API request failed"
    (row, [npi])
  else (BatchRow.error npi "Invalid NPI format (must be 10 digits)", [])

/-- Embedding of the `process_npi_list` loop (src/app.py lines 232-262):
strip each identifier, skip blanks, and otherwise run `stepOne`.  Returns
the ordered rows together with the ordered list of identifiers for which a
network call was made. -/
def runBatch (client : String → Option RawResponse) :
    List String → List BatchRow × List String
  | [] => ([], [])
  | npi :: rest =>
    let t := pyStrip npi
    let tail := runBatch client rest
    if t = "" then tail
    else
      let step := stepOne client t
      (step.1 :: tail.1, step.2 ++ tail.2)

/-- The dictionary keys of a provider row, in construction order (these
become the pandas columns). -/
def infoCols : List String :=
  ["npi", "entity_type", "facility_name", "name", "doing_business_as",
   "first_name", "last_name", "organization_name", "primary_taxonomy",
   "taxonomy_description", "primary_practice_address", "primary_practice_city",
   "primary_practice_state", "primary_practice_zip", "primary_practice_phone",
   "primary_practice_fax", "mailing_address", "mailing_city", "mailing_state",
   "mailing_zip", "status", "last_updated", "enumeration_date",
   "authorized_official_first", "authorized_official_last",
   "authorized_official_title", "authorized_official_phone", "total_locations"]

/-- The dictionary keys of a row. -/
def rowCols : BatchRow → List String
  | BatchRow.record _ => infoCols
  | BatchRow.error _ _ => ["npi", "error"]

/-- Column set of `pd.DataFrame(results)`: the union of the rows' keys in
first-seen order. -/
def dfColumns (rows : List BatchRow) : List String :=
  rows.foldl (fun acc r => acc ++ (rowCols r).filter (fun c => c ∉ acc)) []

/-- Priority columns in facility-focus mode (src/app.py lines 273-275). -/
def facilityPriorityCols : List String :=
  ["npi", "entity_type", "facility_name", "doing_business_as",
   "primary_practice_city", "primary_practice_state",
   "primary_practice_zip", "primary_practice_phone"]

/-- Priority columns in person mode (src/app.py lines 277-279). -/
def personPriorityCols : List String :=
  ["npi", "entity_type", "name", "primary_practice_city",
   "primary_practice_state", "primary_practice_zip", "primary_practice_phone"]

/-- The column-projection step at the end of `process_npi_list`
(src/app.py lines 267-287): filtering runs only when the frame is
non-empty, no `error` column exists, and show-all is off; it keeps the
priority columns present in the frame followed by the first three of the
remaining columns. -/
def finalColumns (rows : List BatchRow) (facility_focus show_all : Bool) :
    List String :=
  let cols := dfColumns rows
  if rows ≠ [] ∧ "error" ∉ cols then
    let priority_cols :=
      if facility_focus then facilityPriorityCols else personPriorityCols
    if show_all = false then
      let available_cols := priority_cols.filter (fun c => c ∈ cols)
      let other_cols := cols.filter (fun c => c ∉ available_cols)
      available_cols ++ other_cols.take 3
    else cols
  else cols

/-- The advanced-search form state of tab 4 (src/app.py lines 519-540),
with the widgets' default values. -/
structure SearchCriteria where
  search_type : String := "All"
  org_name : String := ""
  first_name : String := ""
  last_name : String := ""
  city : String := ""
  state : String := ""
  postal_code : String := ""
  taxonomy_desc : String := ""
  address_purpose : String := "Any"
  limit : Nat := 10
deriving DecidableEq

/-- Model of Python `str.upper()` on ASCII strings. -/
def pyUpper (s : String) : String :=
  String.mk (s.data.map Char.toUpper)

/-- The query-parameter construction of the tab 4 search handler
(src/app.py lines 543-571): blank criteria are omitted, the state code is
upper-cased, `address_purpose` is sent unless it is `"Any"`. -/
def buildSearchParams (c : SearchCriteria) : List (String × String) :=
  [("version", "2.1"), ("limit", toString c.limit)] ++
  (if c.search_type = "Organizations Only" then [("enumeration_type", "NPI-2")]
   else if c.search_type = "Individuals Only" then [("enumeration_type", "NPI-1")]
   else []) ++
  (if c.org_name ≠ "" then [("organization_name", c.org_name)] else []) ++
  (if c.first_name ≠ "" then [("first_name", c.first_name)] else []) ++
  (if c.last_name ≠ "" then [("last_name", c.last_name)] else []) ++
  (if c.city ≠ "" then [("city", c.city)] else []) ++
  (if c.state ≠ "" then [("state", pyUpper c.state)] else []) ++
  (if c.postal_code ≠ "" then [("postal_code", c.postal_code)] else []) ++
  (if c.taxonomy_desc ≠ "" then [("taxonomy_description", c.taxonomy_desc)] else []) ++
  (if c.address_purpose ≠ "Any" then [("address_purpose", c.address_purpose)] else [])

/-- The guard of the tab 4 search handler (src/app.py lines 573-575 and
636-637): the network request is issued, with the built parameters, only
when at least one of the seven criteria strings is truthy; otherwise the
handler stops with a warning and no request (`none`). -/
def searchNetworkRequest (c : SearchCriteria) : Option (List (String × String)) :=
  if c.org_name ≠ "" ∨ c.first_name ≠ "" ∨ c.last_name ≠ "" ∨ c.city ≠ "" ∨
     c.state ≠ "" ∨ c.postal_code ≠ "" ∨ c.taxonomy_desc ≠ "" then
    some (buildSearchParams c)
  else none

/-- Spec-side DBA collection, written from the specification's words for
the refinement comparison of the DBA rule: keep the entries whose type
code marks them as DBA, take each entry's (non-empty) resolved name. -/
def dbaCollect (l : List OtherName) : List String :=
  l.filterMap (fun o =>
    if o.code = some "3" ∨ o.type = some "Doing Business As" then
      (if pyOr o.organization_name o.name ≠ ""
       then some (pyOr o.organization_name o.name) else none)
    else none)

/-- Spec-side de-duplication by exact string equality, keeping the first
occurrence of each name. -/
def dedupFirstSeen (l : List String) : List String :=
  l.foldl (fun acc n => if n ∈ acc then acc else acc ++ [n]) []

/-- Spec-side statement of the whole DBA rule: filter, de-duplicate
first-seen, join with a comma and a space. -/
def dbaOfSpec (l : List OtherName) : String :=
  String.intercalate ", " (dedupFirstSeen (dbaCollect l))

/-- Concrete registry client used to exercise the batch pipeline: one
known identifier resolves, everything else fails at the transport layer. -/
def clientW : String → Option RawResponse :=
  fun n =>
    if n = "1234567890" then some { results := [{ number := "1234567890" }] }
    else none

/-- Concrete client whose every response is well-formed but empty. -/
def clientEmptyW : String → Option RawResponse :=
  fun _ => some { results := [] }

/-- Concrete mailing-tagged address (listed first). -/
def addrMailW : Address :=
  { address_purpose := some "MAILING", address_1 := "PO Box 9",
    city := "MailCity", state := "MS", postal_code := "11111" }

/-- Concrete location-tagged address (listed last). -/
def addrLocW : Address :=
  { address_purpose := some "LOCATION", address_1 := "22 Oak",
    address_2 := "Suite 5", city := "LocCity", state := "LS",
    postal_code := "22222", telephone_number := "555", fax_number := "556" }

/-- Concrete result whose mailing-tagged address precedes its
location-tagged address, with an unrecognized-tag entry in between. -/
def resTaggedW : NpiResult :=
  { addresses := [addrMailW, { address_purpose := some "PRIMARY", city := "Junk" }, addrLocW] }

/-- Concrete result with a single untagged address. -/
def resUntaggedW : NpiResult :=
  { addresses := [{ address_1 := "1 Main St", city := "Springfield" }] }

/-- Concrete organization result whose primary name field is empty but
whose legal-business-name field is populated. -/
def resOrgW : NpiResult :=
  { enumeration_type := some "NPI-2",
    basic := { legal_business_name := "ACME Legal" } }

/-- Concrete result with no enumeration-type tag at all (classified as
Organization by the normalizer) and a populated legal-business-name. -/
def resOrgNoTypeW : NpiResult :=
  { basic := { legal_business_name := "ACME Legal" } }

/-- Concrete taxonomy list: an unflagged first entry with a code,
followed by a primary-flagged entry whose code is empty. -/
def taxListW : List Taxonomy :=
  [{ code := "A", desc := "D0" }, { primary := true, code := "", desc := "D1" }]

/-- Concrete alternate-name list with two identical DBA-typed entries. -/
def dupDbaW : List OtherName :=
  [{ code := some "3", organization_name := "ACME" },
   { code := some "3", organization_name := "ACME" }]

/-- Concrete batch rows containing one provider row and one error row. -/
def rowsW : List BatchRow :=
  [BatchRow.record (normalizeResult {}), BatchRow.error "123" "boom"]

/-!  Helper lemmas about the string model.  -/

theorem dropWhile_append_all {p : Char → Bool} (pre l : List Char)
    (h : ∀ c ∈ pre, p c = true) :
    (pre ++ l).dropWhile p = l.dropWhile p := by
  induction pre with
  | nil => rfl
  | cons c t ih =>
    have hc : p c = true := h c (List.mem_cons_self c t)
    simp only [List.cons_append, List.dropWhile_cons, hc, if_true]
    exact ih (fun d hd => h d (List.mem_cons_of_mem c hd))

theorem dropWhile_all_nil {p : Char → Bool} (l : List Char)
    (h : ∀ c ∈ l, p c = true) : l.dropWhile p = [] := by
  induction l with
  | nil => rfl
  | cons c t ih =>
    have hc : p c = true := h c (List.mem_cons_self c t)
    simp only [List.dropWhile_cons, hc, if_true]
    exact ih (fun d hd => h d (List.mem_cons_of_mem c hd))

theorem stripChars_eq_of_dropWhile_eq {a b : List Char}
    (h : a.dropWhile pyIsSpace = b.dropWhile pyIsSpace) :
    stripChars a = stripChars b := by
  unfold stripChars
  rw [h]

theorem stripChars_append_left (pre l : List Char)
    (h : ∀ c ∈ pre, pyIsSpace c = true) :
    stripChars (pre ++ l) = stripChars l :=
  stripChars_eq_of_dropWhile_eq (dropWhile_append_all pre l h)

theorem stripChars_append_right (l post : List Char)
    (h : ∀ c ∈ post, pyIsSpace c = true) :
    stripChars (l ++ post) = stripChars l := by
  induction l with
  | nil =>
    simp only [List.nil_append]
    unfold stripChars
    rw [dropWhile_all_nil post h]
    rfl
  | cons c m ih =>
    by_cases hc : pyIsSpace c = true
    · have h1 : stripChars ((c :: m) ++ post) = stripChars (m ++ post) :=
        stripChars_eq_of_dropWhile_eq (by simp [List.dropWhile_cons, hc])
      have h2 : stripChars (c :: m) = stripChars m :=
        stripChars_eq_of_dropWhile_eq (by simp [List.dropWhile_cons, hc])
      rw [h1, h2, ih]
    · have hrev : ∀ d ∈ post.reverse, pyIsSpace d = true := by
        intro d hd
        exact h d (List.mem_reverse.mp hd)
      have hc' : pyIsSpace c = false := by
        simpa using hc
      have hL : List.dropWhile pyIsSpace (c :: (m ++ post)) = c :: (m ++ post) := by
        rw [List.dropWhile_cons]
        simp [hc']
      have hR : List.dropWhile pyIsSpace (c :: m) = c :: m := by
        rw [List.dropWhile_cons]
        simp [hc']
      unfold stripChars
      simp only [List.cons_append]
      rw [hL, hR]
      rw [List.reverse_cons, List.reverse_cons, List.reverse_append, List.append_assoc]
      rw [dropWhile_append_all post.reverse (m.reverse ++ [c]) hrev]

theorem pyStrip_pad (s : String) (pre post : List Char)
    (h1 : ∀ c ∈ pre, pyIsSpace c = true) (h2 : ∀ c ∈ post, pyIsSpace c = true) :
    pyStrip (String.mk (pre ++ s.data ++ post)) = pyStrip s := by
  unfold pyStrip
  have : stripChars (pre ++ s.data ++ post) = stripChars s.data := by
    rw [stripChars_append_right (pre ++ s.data) post h2, stripChars_append_left pre s.data h1]
  rw [show (String.mk (pre ++ s.data ++ post)).data = pre ++ s.data ++ post from rfl, this]

/-- C7: `validate_npi` succeeds exactly on strings that, after stripping
surrounding whitespace, consist of exactly 10 decimal-digit characters; it
is a total boolean function, and padding a string with whitespace does not
change the verdict. -/
theorem C7_validator (s : String) :
    (validate_npi s = true ↔
      ((pyStrip s).length = 10 ∧ ∀ c ∈ (pyStrip s).data, '0' ≤ c ∧ c ≤ '9')) ∧
    (∀ pre post : List Char, (∀ c ∈ pre, pyIsSpace c = true) →
      (∀ c ∈ post, pyIsSpace c = true) →
      validate_npi (String.mk (pre ++ s.data ++ post)) = validate_npi s) := by
  constructor
  · unfold validate_npi pyIsDigit
    simp only [Bool.and_eq_true, beq_iff_eq, Bool.not_eq_true', beq_eq_false_iff_ne,
      List.all_eq_true, decide_eq_true_eq]
    constructor
    · rintro ⟨hlen, -, hall⟩
      exact ⟨hlen, hall⟩
    · rintro ⟨hlen, hall⟩
      refine ⟨hlen, ?_, hall⟩
      intro hemp
      rw [hemp] at hlen
      exact absurd hlen (by decide)
  · intro pre post h1 h2
    unfold validate_npi
    rw [pyStrip_pad s pre post h1 h2]

/-- Concrete instance of C7: a space-and-tab padded valid identifier is
equivalent to, and accepted like, the unpadded one. -/
theorem C7_validator_witness :
    validate_npi (String.mk ([' '] ++ "1234567890".data ++ [' ', '\t'])) =
      validate_npi "1234567890" ∧
    validate_npi "1234567890" = true :=
  ⟨(C7_validator "1234567890").2 [' '] [' ', '\t'] (by decide) (by decide), by decide⟩

/-- C10: when every one of the seven search criteria is blank, the tab 4
search handler rejects the search and issues no network request. -/
theorem C10_blank_search_rejected (c : SearchCriteria)
    (h1 : c.org_name = "") (h2 : c.first_name = "") (h3 : c.last_name = "")
    (h4 : c.city = "") (h5 : c.state = "") (h6 : c.postal_code = "")
    (h7 : c.taxonomy_desc = "") :
    searchNetworkRequest c = none := by
  unfold searchNetworkRequest
  simp [h1, h2, h3, h4, h5, h6, h7]

/-- Concrete instance of C10: the form's default (all-blank) state makes
no network request. -/
theorem C10_search_witness : searchNetworkRequest {} = none :=
  C10_blank_search_rejected {} rfl rfl rfl rfl rfl rfl rfl

/-!  Helper lemmas for the batch loop.  -/

theorem stepOne_snd (client : String → Option RawResponse) (t : String) :
    (stepOne client t).2 = if validate_npi t then [t] else [] := by
  unfold stepOne
  by_cases h : validate_npi t = true
  · simp [h]
  · simp [h]

theorem runBatch_rows (client : String → Option RawResponse) (npis : List String) :
    (runBatch client npis).1 =
      ((npis.map pyStrip).filter (fun t => t ≠ "")).map
        (fun t => (stepOne client t).1) := by
  induction npis with
  | nil => rfl
  | cons n rest ih =>
    simp only [runBatch, List.map_cons, List.filter_cons]
    by_cases h : pyStrip n = ""
    · simp [h, ih]
    · simp [h, ih]

theorem runBatch_calls (client : String → Option RawResponse) (npis : List String) :
    (runBatch client npis).2 =
      (npis.map pyStrip).filter (fun t => t ≠ "" ∧ validate_npi t = true) := by
  induction npis with
  | nil => rfl
  | cons n rest ih =>
    simp only [runBatch, List.map_cons, List.filter_cons]
    by_cases h : pyStrip n = ""
    · simp [h, ih]
    · by_cases hv : validate_npi (pyStrip n) = true
      · simp [h, hv, ih, stepOne_snd]
      · simp [h, hv, ih, stepOne_snd]

/-- C1: the batch pipeline emits exactly one row per non-blank identifier,
in input order (blanks emit nothing); a format-invalid identifier yields
the invalid-format error row and no network call; a client failure yields
the lookup-failure error row; a network call is made exactly for the
non-blank identifiers that pass validation, so no item's failure affects
any other item. -/
theorem C1_batch_pipeline (client : String → Option RawResponse) (npis : List String) :
    (runBatch client npis).1 =
      ((npis.map pyStrip).filter (fun t => t ≠ "")).map
        (fun t => (stepOne client t).1) ∧
    (runBatch client npis).2 =
      (npis.map pyStrip).filter (fun t => t ≠ "" ∧ validate_npi t = true) ∧
    (∀ t : String, validate_npi t = false →
      stepOne client t =
        (BatchRow.error t "Invalid NPI format (must be 10 digits)", [])) ∧
    (∀ t : String, validate_npi t = true → client t = none →
      stepOne client t = (BatchRow.error t "API request failed", [t])) := by
  refine ⟨runBatch_rows client npis, runBatch_calls client npis, ?_, ?_⟩
  · intro t hv
    unfold stepOne
    simp [hv]
  · intro t hv hc
    unfold stepOne
    simp [hv, hc]

/-- Concrete instance of C1: a batch of one resolvable identifier, one
malformed identifier, a blank line and one identifier whose lookup fails
at the transport layer produces, in order, a provider row, an
invalid-format row and a lookup-failure row, and queries the client only
for the two valid identifiers. -/
theorem C1_batch_witness :
    stepOne clientW "123456789" =
      (BatchRow.error "123456789" "Invalid NPI format (must be 10 digits)", []) ∧
    stepOne clientW "9876543210" =
      (BatchRow.error "9876543210" "API request failed", ["9876543210"]) ∧
    (runBatch clientW ["1234567890", " 123456789 ", "", "9876543210"]).1 =
      [(stepOne clientW "1234567890").1, (stepOne clientW "123456789").1,
       (stepOne clientW "9876543210").1] ∧
    (runBatch clientW ["1234567890", " 123456789 ", "", "9876543210"]).2 =
      ["1234567890", "9876543210"] := by
  have h := C1_batch_pipeline clientW ["1234567890", " 123456789 ", "", "9876543210"]
  refine ⟨h.2.2.1 "123456789" (by decide), h.2.2.2 "9876543210" (by decide) (by decide), ?_, ?_⟩
  · rw [h.1]
    decide
  · rw [h.2.1]
    decide

/-!  Helper lemmas for the address loop.  -/

theorem addrStep_fst_of_not_loc (p : Option Address × Option Address) (a : Address)
    (h : ¬ a.address_purpose = some "LOCATION") : (addrStep p a).1 = p.1 := by
  unfold addrStep
  by_cases hm : a.address_purpose = some "MAILING"
  · simp [h, hm]
  · simp [h, hm]

theorem addrStep_snd_of_not_mail (p : Option Address × Option Address) (a : Address)
    (h : ¬ a.address_purpose = some "MAILING") : (addrStep p a).2 = p.2 := by
  unfold addrStep
  by_cases hl : a.address_purpose = some "LOCATION"
  · simp [hl]
  · simp [h, hl]

theorem foldl_addrStep_fst_nil (l : List Address) (p : Option Address × Option Address)
    (h : ∀ x ∈ l, ¬ x.address_purpose = some "LOCATION") :
    (l.foldl addrStep p).1 = p.1 := by
  induction l generalizing p with
  | nil => rfl
  | cons a t ih =>
    rw [List.foldl_cons]
    rw [ih (addrStep p a) (fun y hy => h y (List.mem_cons_of_mem a hy))]
    exact addrStep_fst_of_not_loc p a (h a (List.mem_cons_self a t))

theorem foldl_addrStep_snd_nil (l : List Address) (p : Option Address × Option Address)
    (h : ∀ x ∈ l, ¬ x.address_purpose = some "MAILING") :
    (l.foldl addrStep p).2 = p.2 := by
  induction l generalizing p with
  | nil => rfl
  | cons a t ih =>
    rw [List.foldl_cons]
    rw [ih (addrStep p a) (fun y hy => h y (List.mem_cons_of_mem a hy))]
    exact addrStep_snd_of_not_mail p a (h a (List.mem_cons_self a t))

theorem foldl_addrStep_fst_single (l : List Address) (a : Address)
    (p : Option Address × Option Address)
    (h : l.filter (fun x => x.address_purpose = some "LOCATION") = [a]) :
    (l.foldl addrStep p).1 = some a := by
  induction l generalizing p with
  | nil => simp at h
  | cons x t ih =>
    by_cases hx : x.address_purpose = some "LOCATION"
    · have h' : x = a ∧ ∀ y ∈ t, ¬ y.address_purpose = some "LOCATION" := by
        have h2 := h
        simp [List.filter_cons, hx] at h2
        exact h2
      obtain ⟨rfl, ht⟩ := h'
      rw [List.foldl_cons]
      rw [foldl_addrStep_fst_nil t (addrStep p x) ht]
      unfold addrStep
      simp [hx]
    · rw [List.foldl_cons]
      refine ih (addrStep p x) ?_
      have h2 := h
      simp only [List.filter_cons, hx] at h2
      simpa using h2

theorem foldl_addrStep_snd_single (l : List Address) (b : Address)
    (p : Option Address × Option Address)
    (h : l.filter (fun x => x.address_purpose = some "MAILING") = [b]) :
    (l.foldl addrStep p).2 = some b := by
  induction l generalizing p with
  | nil => simp at h
  | cons x t ih =>
    by_cases hx : x.address_purpose = some "MAILING"
    · have h' : x = b ∧ ∀ y ∈ t, ¬ y.address_purpose = some "MAILING" := by
        have h2 := h
        simp [List.filter_cons, hx] at h2
        exact h2
      obtain ⟨rfl, ht⟩ := h'
      have hl : ¬ x.address_purpose = some "LOCATION" := by
        rw [hx]
        decide
      rw [List.foldl_cons]
      rw [foldl_addrStep_snd_nil t (addrStep p x) ht]
      unfold addrStep
      simp [hx, hl]
    · rw [List.foldl_cons]
      refine ih (addrStep p x) ?_
      have h2 := h
      simp only [List.filter_cons, hx] at h2
      simpa using h2

theorem foldl_addrStep_id (l : List Address) (p : Option Address × Option Address)
    (h : ∀ x ∈ l, x.address_purpose ≠ some "LOCATION" ∧ x.address_purpose ≠ some "MAILING") :
    l.foldl addrStep p = p := by
  induction l generalizing p with
  | nil => rfl
  | cons x t ih =>
    have hx := h x (List.mem_cons_self x t)
    rw [List.foldl_cons]
    have hstep : addrStep p x = p := by
      unfold addrStep
      simp [hx.1, hx.2]
    rw [hstep]
    exact ih p (fun y hy => h y (List.mem_cons_of_mem x hy))

/-- C2: when the address list has exactly one entry tagged `"LOCATION"`
and exactly one tagged `"MAILING"`, the normalizer fills the practice
fields from the location-tagged entry and the mailing fields from the
mailing-tagged entry, regardless of their positions, and entries with a
missing or unrecognized tag are ignored. -/
theorem C2_address_by_tag (result : NpiResult) (a b : Address)
    (ha : result.addresses.filter (fun x => x.address_purpose = some "LOCATION") = [a])
    (hb : result.addresses.filter (fun x => x.address_purpose = some "MAILING") = [b]) :
    ∃ info, extract_provider_info (some ({ results := [result] } : RawResponse)) = some info ∧
      info.primary_practice_address = pyStrip (a.address_1 ++ " " ++ a.address_2) ∧
      info.primary_practice_city = a.city ∧
      info.primary_practice_state = a.state ∧
      info.primary_practice_zip = a.postal_code ∧
      info.primary_practice_phone = a.telephone_number ∧
      info.primary_practice_fax = a.fax_number ∧
      info.mailing_address = pyStrip (b.address_1 ++ " " ++ b.address_2) ∧
      info.mailing_city = b.city ∧
      info.mailing_state = b.state ∧
      info.mailing_zip = b.postal_code := by
  have hfst : (addrScan result.addresses).1 = some a :=
    foldl_addrStep_fst_single result.addresses a (none, none) ha
  have hsnd : (addrScan result.addresses).2 = some b :=
    foldl_addrStep_snd_single result.addresses b (none, none) hb
  refine ⟨normalizeResult result, rfl, ?_⟩
  simp [normalizeResult, hfst, hsnd, optAddrField]

/-- Concrete instance of C2: the mailing-tagged entry comes first, an
unrecognized `"PRIMARY"`-tagged entry sits in between, and the practice
fields still come from the location-tagged entry. -/
theorem C2_address_witness :
    ∃ info, extract_provider_info (some ({ results := [resTaggedW] } : RawResponse)) = some info ∧
      info.primary_practice_address =
        pyStrip (addrLocW.address_1 ++ " " ++ addrLocW.address_2) ∧
      info.primary_practice_city = addrLocW.city ∧
      info.primary_practice_state = addrLocW.state ∧
      info.primary_practice_zip = addrLocW.postal_code ∧
      info.primary_practice_phone = addrLocW.telephone_number ∧
      info.primary_practice_fax = addrLocW.fax_number ∧
      info.mailing_address = pyStrip (addrMailW.address_1 ++ " " ++ addrMailW.address_2) ∧
      info.mailing_city = addrMailW.city ∧
      info.mailing_state = addrMailW.state ∧
      info.mailing_zip = addrMailW.postal_code :=
  C2_address_by_tag resTaggedW addrLocW addrMailW (by decide) (by decide)

/-- C3 counterexample: an address list with a single untagged entry leaves
both the practice and the mailing fields empty — the first entry does NOT
populate the practice address, contrary to the claimed positional
fallback. -/
theorem C3_counterexample :
    (extract_provider_info (some ({ results := [resUntaggedW] } : RawResponse))).map
        (fun i => (i.primary_practice_address, i.primary_practice_city,
          i.mailing_address, i.mailing_city)) = some ("", "", "", "") ∧
    resUntaggedW.addresses.map Address.city = ["Springfield"] ∧
    ("Springfield" : String) ≠ "" := by
  refine ⟨by decide, by decide, by decide⟩

/-- C3 amended: when no entry of the address list carries a recognized
role tag, there is no positional fallback — every practice and mailing
field of the normalized record is the empty string. -/
theorem C3_no_positional_fallback (result : NpiResult)
    (h : ∀ x ∈ result.addresses,
      x.address_purpose ≠ some "LOCATION" ∧ x.address_purpose ≠ some "MAILING") :
    ∃ info, extract_provider_info (some ({ results := [result] } : RawResponse)) = some info ∧
      info.primary_practice_address = "" ∧
      info.primary_practice_city = "" ∧
      info.primary_practice_state = "" ∧
      info.primary_practice_zip = "" ∧
      info.primary_practice_phone = "" ∧
      info.primary_practice_fax = "" ∧
      info.mailing_address = "" ∧
      info.mailing_city = "" ∧
      info.mailing_state = "" ∧
      info.mailing_zip = "" := by
  have hscan : addrScan result.addresses = (none, none) :=
    foldl_addrStep_id result.addresses (none, none) h
  refine ⟨normalizeResult result, rfl, ?_⟩
  have hps : pyStrip " " = "" := by decide
  simp [normalizeResult, hscan, optAddrField, hps]

/-!  C4: organization-name fallback chain.  -/

theorem pyOr_chain_find (s1 s2 s3 s4 : String) :
    pyOr s1 (pyOr s2 (pyOr s3 (pyOr s4 ""))) =
      (([s1, s2, s3, s4].find? (fun s => s ≠ "")).getD "") := by
  by_cases h1 : s1 = "" <;> by_cases h2 : s2 = "" <;>
    by_cases h3 : s3 = "" <;> by_cases h4 : s4 = "" <;>
      simp [pyOr, List.find?, h1, h2, h3, h4]

/-- C4 counterexample: a result with no enumeration-type tag is classified
as Organization-kind, yet its organization name stays empty even though
its legal-business-name field is non-empty — the fallback chain only runs
for results tagged `"NPI-2"`. -/
theorem C4_counterexample :
    (extract_provider_info (some ({ results := [resOrgNoTypeW] } : RawResponse))).map
      (fun i => (i.entity_type, i.organization_name)) = some ("Organization", "") ∧
    resOrgNoTypeW.basic.legal_business_name = "ACME Legal" ∧
    ("ACME Legal" : String) ≠ "" :=
  ⟨by decide, by decide, by decide⟩

/-- C4 amended: for every result whose enumeration-type tag is the
organization value `"NPI-2"`, the normalizer resolves the organization
name through the four-candidate fallback chain
(organization_name, name, legal_business_name, org_name), first non-empty
candidate wins, defaulting to the empty string. -/
theorem C4_org_name_chain (result : NpiResult)
    (h : result.enumeration_type = some "NPI-2") :
    ∃ info, extract_provider_info (some ({ results := [result] } : RawResponse)) = some info ∧
      info.organization_name =
        (([result.basic.organization_name, result.basic.name,
           result.basic.legal_business_name, result.basic.org_name].find?
          (fun s => s ≠ "")).getD "") ∧
      info.facility_name = info.organization_name ∧
      info.entity_type = "Organization" := by
  have hne : ¬ result.enumeration_type = some "NPI-1" := by
    rw [h]
    decide
  refine ⟨normalizeResult result, rfl, ?_, rfl, ?_⟩
  · show (if result.enumeration_type = some "NPI-2" then
        pyOr result.basic.organization_name
          (pyOr result.basic.name
            (pyOr result.basic.legal_business_name (pyOr result.basic.org_name "")))
      else "") = _
    rw [if_pos h]
    exact pyOr_chain_find _ _ _ _
  · show (if result.enumeration_type = some "NPI-1" then "Individual" else "Organization") = _
    rw [if_neg hne]

/-- Concrete instance of the amended C4: empty primary name field,
populated legal-business-name; the chain resolves to the legal name. -/
theorem C4_org_name_witness :
    ∃ info, extract_provider_info (some ({ results := [resOrgW] } : RawResponse)) = some info ∧
      info.organization_name =
        (([resOrgW.basic.organization_name, resOrgW.basic.name,
           resOrgW.basic.legal_business_name, resOrgW.basic.org_name].find?
          (fun s => s ≠ "")).getD "") ∧
      info.facility_name = info.organization_name ∧
      info.entity_type = "Organization" :=
  C4_org_name_chain resOrgW rfl

/-!  C5: primary-taxonomy selection.  -/

theorem primaryTaxonomyPair_primary (ts : List Taxonomy) (t : Taxonomy)
    (hf : ts.find? (fun x => x.primary) = some t) (hc : t.code ≠ "") :
    primaryTaxonomyPair ts = (t.code, t.desc) := by
  cases ts with
  | nil => simp at hf
  | cons a l =>
    unfold primaryTaxonomyPair
    rw [hf]
    simp [hc]

theorem primaryTaxonomyPair_primary_empty_code (ts : List Taxonomy) (t h0 : Taxonomy)
    (hf : ts.find? (fun x => x.primary) = some t) (hc : t.code = "")
    (hh : ts.head? = some h0) :
    primaryTaxonomyPair ts = (h0.code, h0.desc) := by
  cases ts with
  | nil => simp at hf
  | cons a l =>
    have ha : a = h0 := by
      simpa using hh
    unfold primaryTaxonomyPair
    rw [hf]
    simp [hc, ha]

theorem primaryTaxonomyPair_no_primary (ts : List Taxonomy) (h0 : Taxonomy)
    (hf : ts.find? (fun x => x.primary) = none) (hh : ts.head? = some h0) :
    primaryTaxonomyPair ts = (h0.code, h0.desc) := by
  cases ts with
  | nil => simp at hh
  | cons a l =>
    have ha : a = h0 := by
      simpa using hh
    unfold primaryTaxonomyPair
    rw [hf]
    simp [ha]

/-- C5 amended: the normalizer selects the first entry flagged primary,
but only when that entry's code is non-empty; if the flagged entry's code
is empty, or no entry is flagged, both taxonomy fields are re-taken from
the first entry in list order; an empty list leaves both fields empty. -/
theorem C5_taxonomy_selection (ts : List Taxonomy) :
    ∃ info, extract_provider_info
        (some ({ results := [{ taxonomies := ts }] } : RawResponse)) = some info ∧
      (ts = [] → info.primary_taxonomy = "" ∧ info.taxonomy_description = "") ∧
      (∀ t : Taxonomy, ts.find? (fun x => x.primary) = some t → t.code ≠ "" →
        info.primary_taxonomy = t.code ∧ info.taxonomy_description = t.desc) ∧
      (∀ t h0 : Taxonomy, ts.find? (fun x => x.primary) = some t → t.code = "" →
        ts.head? = some h0 →
        info.primary_taxonomy = h0.code ∧ info.taxonomy_description = h0.desc) ∧
      (∀ h0 : Taxonomy, ts.find? (fun x => x.primary) = none → ts.head? = some h0 →
        info.primary_taxonomy = h0.code ∧ info.taxonomy_description = h0.desc) := by
  have e1 : (normalizeResult ({ taxonomies := ts } : NpiResult)).primary_taxonomy =
      (primaryTaxonomyPair ts).1 := rfl
  have e2 : (normalizeResult ({ taxonomies := ts } : NpiResult)).taxonomy_description =
      (primaryTaxonomyPair ts).2 := rfl
  refine ⟨normalizeResult { taxonomies := ts }, rfl, ?_, ?_, ?_, ?_⟩
  · intro hnil
    subst hnil
    exact ⟨rfl, rfl⟩
  · intro t hf hc
    rw [e1, e2, primaryTaxonomyPair_primary ts t hf hc]
    exact ⟨rfl, rfl⟩
  · intro t h0 hf hc hh
    rw [e1, e2, primaryTaxonomyPair_primary_empty_code ts t h0 hf hc hh]
    exact ⟨rfl, rfl⟩
  · intro h0 hf hh
    rw [e1, e2, primaryTaxonomyPair_no_primary ts h0 hf hh]
    exact ⟨rfl, rfl⟩

/-- C5 counterexample: the primary-flagged entry is the second one, with
empty code and description "D1"; the normalizer nevertheless reports the
code and description of the unflagged first entry. -/
theorem C5_counterexample :
    (extract_provider_info
        (some ({ results := [{ taxonomies := taxListW }] } : RawResponse))).map
      (fun i => (i.primary_taxonomy, i.taxonomy_description)) = some ("A", "D0") ∧
    taxListW.find? (fun t => t.primary) =
      some { primary := true, code := "", desc := "D1" } ∧
    (("A", "D0") : String × String) ≠ ("", "D1") :=
  ⟨by decide, by decide, by decide⟩

/-- Concrete instance of the amended C5: the flagged entry has an empty
code, so both fields come from the first entry. -/
theorem C5_taxonomy_witness :
    ∃ info, extract_provider_info
        (some ({ results := [{ taxonomies := taxListW }] } : RawResponse)) = some info ∧
      info.primary_taxonomy = "A" ∧ info.taxonomy_description = "D0" := by
  obtain ⟨info, he, -, -, h3, -⟩ := C5_taxonomy_selection taxListW
  have h := h3 { primary := true, code := "", desc := "D1" }
    { code := "A", desc := "D0" } (by decide) rfl (by decide)
  exact ⟨info, he, h.1, h.2⟩

/-- Concrete instance of the amended C3. -/
theorem C3_fallback_witness :
    ∃ info, extract_provider_info (some ({ results := [resUntaggedW] } : RawResponse)) = some info ∧
      info.primary_practice_address = "" ∧
      info.primary_practice_city = "" ∧
      info.primary_practice_state = "" ∧
      info.primary_practice_zip = "" ∧
      info.primary_practice_phone = "" ∧
      info.primary_practice_fax = "" ∧
      info.mailing_address = "" ∧
      info.mailing_city = "" ∧
      info.mailing_state = "" ∧
      info.mailing_zip = "" :=
  C3_no_positional_fallback resUntaggedW (by decide)

/-- C6: the normalizer returns `none` exactly when the response carries no
result (missing response, falsy/empty dictionary, missing `results` key,
or empty results list); it is a total function, all string fields of a
fully-absent result default to the empty string and the location count
defaults to 1; and in the batch pipeline a well-formed empty result
produces the not-found error row instead of a crash. -/
theorem C6_normalizer_total :
    (∀ r : Option RawResponse, extract_provider_info r = none ↔
      (r = none ∨ ∃ resp : RawResponse, r = some resp ∧
        (resp.pyTruthy = false ∨ resp.hasResultsKey = false ∨ resp.results = []))) ∧
    (∃ info, extract_provider_info (some ({ results := [{}] } : RawResponse)) = some info ∧
      info.npi = "" ∧ info.name = "" ∧ info.organization_name = "" ∧
      info.facility_name = "" ∧ info.doing_business_as = "" ∧
      info.first_name = "" ∧ info.last_name = "" ∧
      info.primary_taxonomy = "" ∧ info.taxonomy_description = "" ∧
      info.primary_practice_address = "" ∧ info.primary_practice_city = "" ∧
      info.primary_practice_state = "" ∧ info.primary_practice_zip = "" ∧
      info.primary_practice_phone = "" ∧ info.primary_practice_fax = "" ∧
      info.mailing_address = "" ∧ info.mailing_city = "" ∧
      info.mailing_state = "" ∧ info.mailing_zip = "" ∧
      info.status = "" ∧ info.last_updated = "" ∧ info.enumeration_date = "" ∧
      info.authorized_official_first = "" ∧ info.authorized_official_last = "" ∧
      info.authorized_official_title = "" ∧ info.authorized_official_phone = "" ∧
      info.total_locations = 1) ∧
    (∀ (client : String → Option RawResponse) (npi : String) (resp : RawResponse),
      validate_npi npi = true → client npi = some resp →
      resp.hasResultsKey = true → resp.results = [] →
      stepOne client npi = (BatchRow.error npi "No results found", [npi])) := by
  refine ⟨?_, ?_, ?_⟩
  · intro r
    cases r with
    | none => simp [extract_provider_info]
    | some resp =>
      obtain ⟨hk, res, hok⟩ := resp
      cases res with
      | nil => simp [extract_provider_info]
      | cons r0 tl =>
        cases hk with
        | false =>
          cases hok with
          | false => simp [extract_provider_info, RawResponse.pyTruthy]
          | true => simp [extract_provider_info, RawResponse.pyTruthy]
        | true => simp [extract_provider_info, RawResponse.pyTruthy]
  · refine ⟨normalizeResult {}, rfl, ?_⟩
    decide
  · intro client npi resp hv hc hk hres
    obtain ⟨hkf, res, hok⟩ := resp
    simp only at hk hres
    subst hk
    subst hres
    unfold stepOne
    rw [if_pos hv, hc]
    simp [extract_provider_info, RawResponse.pyTruthy]

/-- Concrete instance of C6: a well-formed response whose results list is
empty normalizes to `none`, and the batch loop turns it into the
not-found error row. -/
theorem C6_normalizer_witness :
    extract_provider_info (some ({ results := [] } : RawResponse)) = none ∧
    stepOne clientEmptyW "1234567890" =
      (BatchRow.error "1234567890" "No results found", ["1234567890"]) := by
  refine ⟨?_, ?_⟩
  · exact (C6_normalizer_total.1 (some ({ results := [] } : RawResponse))).mpr
      (Or.inr ⟨{ results := [] }, rfl, Or.inr (Or.inr rfl)⟩)
  · exact C6_normalizer_total.2.2 clientEmptyW "1234567890" { results := [] }
      (by decide) rfl rfl rfl

/-!  Helper lemmas for the DBA rule.  -/

theorem foldl_dbaStep_eq (l : List OtherName) (acc : List String) :
    l.foldl dbaStep acc =
      (dbaCollect l).foldl (fun a n => if n ∈ a then a else a ++ [n]) acc := by
  induction l generalizing acc with
  | nil => rfl
  | cons o t ih =>
    by_cases hd : o.code = some "3" ∨ o.type = some "Doing Business As"
    · by_cases hn : pyOr o.organization_name o.name = ""
      · have hstep : dbaStep acc o = acc := by
          unfold dbaStep
          rw [if_pos hd]
          simp [hn]
        have hcol : dbaCollect (o :: t) = dbaCollect t := by
          unfold dbaCollect
          rw [List.filterMap_cons]
          simp [hd, hn]
        rw [List.foldl_cons, hstep, hcol]
        exact ih acc
      · have hcol : dbaCollect (o :: t) =
            pyOr o.organization_name o.name :: dbaCollect t := by
          unfold dbaCollect
          rw [List.filterMap_cons]
          simp [hd, hn]
        by_cases hm : pyOr o.organization_name o.name ∈ acc
        · have hstep : dbaStep acc o = acc := by
            unfold dbaStep
            rw [if_pos hd]
            simp [hm]
          rw [List.foldl_cons, hstep, hcol, List.foldl_cons, if_pos hm]
          exact ih acc
        · have hstep : dbaStep acc o = acc ++ [pyOr o.organization_name o.name] := by
            unfold dbaStep
            rw [if_pos hd]
            simp [hn, hm]
          rw [List.foldl_cons, hstep, hcol, List.foldl_cons, if_neg hm]
          exact ih (acc ++ [pyOr o.organization_name o.name])
    · have hstep : dbaStep acc o = acc := by
        unfold dbaStep
        rw [if_neg hd]
      have hcol : dbaCollect (o :: t) = dbaCollect t := by
        unfold dbaCollect
        rw [List.filterMap_cons]
        simp [hd]
      rw [List.foldl_cons, hstep, hcol]
      exact ih acc

theorem dbaNames_eq_spec (l : List OtherName) :
    dbaNames l = dedupFirstSeen (dbaCollect l) :=
  foldl_dbaStep_eq l []

/-- C8: the `doing_business_as` field equals the spec-side rule — keep the
DBA-typed entries' non-empty names, de-duplicate by exact string equality
keeping first occurrences, join with a comma and a space (the empty
survivor set gives the empty string); in particular two identical
DBA-typed names yield a single occurrence. -/
theorem C8_dba_extraction (result : NpiResult) :
    (∃ info, extract_provider_info (some ({ results := [result] } : RawResponse)) = some info ∧
      info.doing_business_as = dbaOfSpec result.other_names) ∧
    (∃ info2, extract_provider_info
        (some ({ results := [{ other_names := dupDbaW }] } : RawResponse)) = some info2 ∧
      info2.doing_business_as = "ACME") := by
  constructor
  · refine ⟨normalizeResult result, rfl, ?_⟩
    show (if dbaNames result.other_names ≠ [] then
        String.intercalate ", " (dbaNames result.other_names) else "") =
      dbaOfSpec result.other_names
    rw [dbaNames_eq_spec]
    unfold dbaOfSpec
    cases hc : dedupFirstSeen (dbaCollect result.other_names) with
    | nil => rfl
    | cons a tl => simp
  · exact ⟨normalizeResult { other_names := dupDbaW }, rfl, by decide⟩

/-!  Helper lemma for the column projection.  -/

theorem mem_colUnion_acc (l : List BatchRow) (acc : List String) (c : String)
    (h : c ∈ acc ∨ ∃ r ∈ l, c ∈ rowCols r) :
    c ∈ l.foldl (fun acc2 r => acc2 ++ (rowCols r).filter (fun x => x ∉ acc2)) acc := by
  induction l generalizing acc with
  | nil =>
    rcases h with h | ⟨r, hr, -⟩
    · exact h
    · exact absurd hr (List.not_mem_nil r)
  | cons r0 t ih =>
    rw [List.foldl_cons]
    apply ih
    rcases h with hacc | ⟨r, hr, hc⟩
    · exact Or.inl (List.mem_append_left _ hacc)
    · rcases List.mem_cons.mp hr with rfl | hmem
      · by_cases hin : c ∈ acc
        · exact Or.inl (List.mem_append_left _ hin)
        · refine Or.inl (List.mem_append_right _ ?_)
          rw [List.mem_filter]
          exact ⟨hc, by simpa using hin⟩
      · exact Or.inr ⟨r, hmem, hc⟩

/-- C9: as soon as some row of the batch is an error row, the projection
step with show-all off (either mode) applies no priority filtering: the
final column set is the full unfiltered one, which contains the error
column. -/
theorem C9_error_preserves_columns (rows : List BatchRow) (facility_focus : Bool)
    (h : ∃ n m, BatchRow.error n m ∈ rows) :
    finalColumns rows facility_focus false = dfColumns rows ∧
    "error" ∈ dfColumns rows := by
  obtain ⟨n, m, hmem⟩ := h
  have herr : "error" ∈ dfColumns rows := by
    apply mem_colUnion_acc rows [] "error"
    exact Or.inr ⟨BatchRow.error n m, hmem, by simp [rowCols]⟩
  refine ⟨?_, herr⟩
  have h' : ¬(rows ≠ [] ∧ "error" ∉ dfColumns rows) := fun hcond => hcond.2 herr
  simp only [finalColumns]
  rw [if_neg h']

/-- Concrete instance of C9: one provider row plus one error row keep the
full column set in facility mode with show-all off. -/
theorem C9_columns_witness :
    finalColumns rowsW true false = dfColumns rowsW ∧ "error" ∈ dfColumns rowsW :=
  C9_error_preserves_columns rowsW true ⟨"123", "boom", by decide⟩

end NpiApp
